import Mathlib

/-!
Verification development for the JNTUH results MCP server.

The repository has two collaborating entry points implementing the same
logical system:

- app.py : a Flask HTTP app (functions `get_unique_values`, `filter_results`,
  `mcp_generate_result`).
- mcp.py : a FastMCP tool server (functions `filter_results`,
  `get_result_pdf`).

They are shallowly embedded here, each in its own namespace (`App`, `Mcp`).
Catalog rows (pandas DataFrame rows) become a `Row` structure whose cells are
`String` (or `Option String` for the columns that may hold a pandas NaN;
`none` models NaN and the `na=False` / `pd.notna` handling of the source).
Python truthiness of an optional string argument (`if x:`) is modelled by
`Option String` being `some v` with `v` non-empty.  Case mapping is modelled
per character with `Char.toLower`/`Char.toUpper`, which agrees with Python on
the ASCII tokens this catalog holds.  The network (`requests.post`) and the
wall clock are modelled as oracles passed in as explicit parameters, so that
the generate operations become pure functions returning a trace of the
network calls made and artifacts written.
-/

/-- Lower-case a string character by character (models Python str.lower and
pandas Series.str.lower on the ASCII tokens of this catalog). -/
def lowerStr (s : String) : String := ⟨s.data.map Char.toLower⟩

/-- Upper-case a string character by character (models Python str.upper). -/
def upperStr (s : String) : String := ⟨s.data.map Char.toUpper⟩

/-- Substring test on character lists: does `sub` occur contiguously anywhere
in `hay`?  Models Python's `sub in hay` (and a plain-text pandas
`str.contains`). -/
def containsSub (hay sub : List Char) : Bool :=
  if sub.isPrefixOf hay then true
  else
    match hay with
    | [] => false
    | _ :: t => containsSub t sub

/-- Case-insensitive substring test (models pandas
`str.contains(pat, case=False)` for a pattern with no regex metacharacters). -/
def containsInsens (hay sub : String) : Bool :=
  containsSub (hay.data.map Char.toLower) (sub.data.map Char.toLower)

/-- Split a character list at every occurrence of `c`, keeping empty pieces;
models Python `str.split(c)` for a one-character separator. -/
def splitChar (c : Char) : List Char → List (List Char)
  | [] => [[]]
  | x :: t =>
    if x = c then [] :: splitChar c t
    else
      match splitChar c t with
      | h :: r => (x :: h) :: r
      | [] => [[x]]

/-- Split a character list at the first occurrence of `c`, returning the
pieces before and after it; models Python `str.split(c, 1)` when `c` occurs. -/
def splitFirst (c : Char) : List Char → List Char × List Char
  | [] => ([], [])
  | x :: t =>
    if x = c then ([], t)
    else
      let p := splitFirst c t
      (x :: p.1, p.2)

/-- Insertion into an association list with in-place overwrite of an existing
key; models assignment `d[k] = v` on a Python dict. -/
def dictInsert (k v : String) : List (String × String) → List (String × String)
  | [] => [(k, v)]
  | (k₁, v₁) :: t => if k₁ = k then (k, v) :: t else (k₁, v₁) :: dictInsert k v t

/-- One row of the results catalog (`jntuh_results.csv`).  The four optional
query-token columns may hold NaN in the CSV and are therefore `Option String`;
the remaining columns always hold text in this catalog. -/
structure Row where
  Title : String
  URL : String
  Exam_Date : String
  degree : String
  examCode : String
  etype : Option String
  type : Option String
  result : Option String
  grad : Option String
  Regulation : String
  Is_Supplementary : String
  Exam_Type : String
  Year : String
  Semester : String
deriving DecidableEq

/-- The filter dictionary accepted by app.py's `filter_results`: each facet is
either absent (`none`) or present with a string value.  `some ""` models a
present but falsy value. -/
structure Filters where
  degree_type : Option String
  year : Option String
  semester : Option String
  regulation : Option String
  exam_type : Option String
  rc_rv : Option String
deriving DecidableEq

/-- Guarded filter stage: models the Python pattern
`if key in filters and filters[key]: df = ...`, which runs the stage body only
when the facet is present with a truthy (non-empty) value. -/
def applyIf (o : Option String) (f : String → List Row → List Row)
    (rows : List Row) : List Row :=
  match o with
  | none => rows
  | some v => if v = "" then rows else f v rows

/-- Title test shared by both entry points: pandas
`str.contains('RC/RV|RCRV', case=False, na=False)`, a regex alternation of two
plain words, i.e. a case-insensitive substring test for either word. -/
def rcrvTitle (r : Row) : Bool :=
  containsInsens r.Title "RC/RV" || containsInsens r.Title "RCRV"

namespace App

/-- Degree branch of app.py `filter_results` (the if/elif chain on
`degree_type`; an unrecognised value falls through every branch and leaves the
frame unfiltered). -/
def degreeStage (v : String) (rows : List Row) : List Row :=
  if v = "BTech" then
    rows.filter (fun r => lowerStr r.degree == "btech" || lowerStr r.degree == "b.e")
  else if v = "B.Pharmacy" then
    rows.filter (fun r => lowerStr r.degree == "bpharmacy")
  else if v = "MTech" then
    rows.filter (fun r => lowerStr r.degree == "mtech")
  else if v = "M.Pharmacy" then
    rows.filter (fun r => lowerStr r.degree == "mpharmacy")
  else rows

/-- Exam-type branch of app.py `filter_results`. -/
def examTypeStage (v : String) (rows : List Row) : List Row :=
  if v = "Regular" then
    rows.filter (fun r => lowerStr r.Exam_Type == "regular")
  else if v = "Supplementary" then
    rows.filter (fun r => containsInsens r.Exam_Type "supplementary")
  else rows

/-- RC/RV branch of app.py `filter_results`: only the value "Yes" filters. -/
def rcrvStage (v : String) (rows : List Row) : List Row :=
  if v = "Yes" then rows.filter rcrvTitle else rows

/-- app.py `filter_results(filters)`: the six guarded stages applied in source
order to a copy of the catalog. -/
def filter_results (rows : List Row) (f : Filters) : List Row :=
  let d0 := applyIf f.degree_type degreeStage rows
  let d1 := applyIf f.year
    (fun v rows => rows.filter (fun r => lowerStr r.Year == lowerStr v)) d0
  let d2 := applyIf f.semester
    (fun v rows => rows.filter (fun r => lowerStr r.Semester == lowerStr v)) d1
  let d3 := applyIf f.regulation
    (fun v rows => rows.filter (fun r => lowerStr r.Regulation == lowerStr v)) d2
  let d4 := applyIf f.exam_type examTypeStage d3
  applyIf f.rc_rv rcrvStage d4

end App

namespace Mcp

/-- mcp.py `filter_results(...)`: six optional keyword arguments, each guarded
by Python truthiness.  Degree is compared by exact equality with the
lower-cased argument; Year and Semester by exact equality; Regulation by exact
equality with the upper-cased argument; the exam-type and RC/RV branches
mirror the source's if/elif chains (note the explicit "No" branch). -/
def filter_results (rows : List Row)
    (degree_type year semester regulation exam_type is_rc_rv : Option String) :
    List Row :=
  let d0 := applyIf degree_type
    (fun v rows => rows.filter (fun r => r.degree == lowerStr v)) rows
  let d1 := applyIf year
    (fun v rows => rows.filter (fun r => r.Year == v)) d0
  let d2 := applyIf semester
    (fun v rows => rows.filter (fun r => r.Semester == v)) d1
  let d3 := applyIf regulation
    (fun v rows => rows.filter (fun r => r.Regulation == upperStr v)) d2
  let d4 := applyIf exam_type
    (fun v rows =>
      if v = "Regular" then rows.filter (fun r => r.Exam_Type == "Regular")
      else if v = "Supplementary" then
        rows.filter (fun r => containsInsens r.Exam_Type "supplementary")
      else rows) d3
  applyIf is_rc_rv
    (fun v rows =>
      if v = "Yes" then rows.filter rcrvTitle
      else if v = "No" then rows.filter (fun r => !(rcrvTitle r))
      else rows) d4

end Mcp

/-! ### Facet index (app.py `get_unique_values`)

A DataFrame is viewed column-wise: an association list from column name to
the list of that column's cells, a cell being `none` for NaN. -/

/-- First-seen de-duplication, the order-preserving behaviour of pandas
`Series.unique`; `seen` accumulates the values already emitted. -/
def uniqueAux (seen : List String) : List String → List String
  | [] => []
  | x :: t => if x ∈ seen then uniqueAux seen t else x :: uniqueAux (x :: seen) t

/-- De-duplicate keeping first occurrences (pandas `Series.unique`). -/
def uniqueFS (l : List String) : List String := uniqueAux [] l

namespace App

/-- app.py `get_unique_values(column)`: empty for a column absent from the
schema; otherwise `dropna`, stringify, de-duplicate, then drop every value
whose lower-casing is "unknown" or "nan". -/
def get_unique_values (df : List (String × List (Option String)))
    (column : String) : List String :=
  match df.lookup column with
  | none => []
  | some cells =>
    (uniqueFS (cells.filterMap id)).filter
      (fun v => !(lowerStr v == "unknown" || lowerStr v == "nan"))

end App

/-! ### Reference resolution and the generate operations

The downstream network call and the clock are oracles:
`net : List (String × String) → FetchResult` maps the posted form parameters
to either a transport failure (a raised `requests` exception /
`raise_for_status`) or a response body, and `ts` is the formatted timestamp
`datetime.now().strftime("%Y%m%d_%H%M%S")`.  A generate run is summarised as
a `GenTrace`: the structured outcome plus the list of network calls performed
and of artifact files written. -/

/-- Outcome of one downstream POST, as seen by the caller. -/
inductive FetchResult
  | transportFailure
  | ok (body : String)
deriving DecidableEq

/-- Error taxonomy of the generate operations. -/
inductive Outcome
  | invalidRequest
  | notFoundCatalogEntry
  | notFoundRecord
  | transportFailure
  | success (locator : String)
deriving DecidableEq

/-- Trace of one generate invocation. -/
structure GenTrace where
  outcome : Outcome
  netCalls : List (List (String × String))
  artifacts : List String
deriving DecidableEq

/-- Row lookup used by both generate operations:
`df[df['examCode'].astype(str) == str(exam_code)]` followed by `.iloc[0]`,
i.e. the first row whose exam code equals the request's. -/
def firstMatch (code : String) (catalog : List Row) : Option Row :=
  catalog.find? (fun r => r.examCode == code)

/-- PDF filename `result_<htno>_<examCode>_<timestamp>.pdf`. -/
def artifactName (htno code ts : String) : String :=
  "result_" ++ htno ++ "_" ++ code ++ "_" ++ ts ++ ".pdf"

/-- Fold the `key=value` components of a query string into a parameter dict:
split on the separator, skip components without an equals sign, split each
remaining component at its first equals sign. -/
def addPairs (qs : List Char) (p : List (String × String)) :
    List (String × String) :=
  (splitChar '&' qs).foldl
    (fun p comp =>
      if '=' ∈ comp then
        dictInsert ⟨(splitFirst '=' comp).1⟩ ⟨(splitFirst '=' comp).2⟩ p
      else p)
    p

/-- The `if '?' in url:` block shared by both resolvers: when the URL holds a
question mark, `url.split('?')[1]` (the piece between the first and second
question mark) is parsed into the dict; otherwise the dict is untouched. -/
def addUrlParams (url : String) (p : List (String × String)) :
    List (String × String) :=
  if '?' ∈ url.data then addPairs ((splitChar '?' url.data).getD 1 []) p
  else p

/-- Does a body contain any phrase of the list (Python `any(p in body ...)`). -/
def hasPhrase (ps : List String) (body : String) : Bool :=
  ps.any (fun p => containsSub body.data p.data)

namespace App

/-- Not-found phrases checked by app.py (two literal `in` tests). -/
def errorIndicators : List String :=
  ["No Records Found", "Invalid Hall Ticket Number"]

/-- Parameter construction in app.py `mcp_generate_result`: an empty dict,
the reference-string pairs, then `htno` — no declared-column seeding. -/
def resolveParams (r : Row) (htno : String) : List (String × String) :=
  dictInsert "htno" htno (addUrlParams r.URL [])

/-- app.py `mcp_generate_result`: reject missing/empty inputs, locate the
row, resolve parameters, POST, classify the body, publish the PDF. -/
def mcp_generate_result (catalog : List Row)
    (net : List (String × String) → FetchResult) (ts : String)
    (exam_code htno : String) : GenTrace :=
  if exam_code = "" ∨ htno = "" then ⟨.invalidRequest, [], []⟩
  else
    match firstMatch exam_code catalog with
    | none => ⟨.notFoundCatalogEntry, [], []⟩
    | some row =>
      let params := resolveParams row htno
      match net params with
      | .transportFailure => ⟨.transportFailure, [params], []⟩
      | .ok body =>
        if containsSub body.data "No Records Found".data
            || containsSub body.data "Invalid Hall Ticket Number".data then
          ⟨.notFoundRecord, [params], []⟩
        else
          ⟨.success ("/static/pdfs/" ++ artifactName htno exam_code ts),
            [params], [artifactName htno exam_code ts]⟩

end App

namespace Mcp

/-- Not-found phrases checked by mcp.py (`error_indicators`). -/
def errorIndicators : List String :=
  ["No Records Found", "Invalid Hall Ticket Number", "Invalid HTNO",
    "Result Not Found"]

/-- Declared-column seeding in mcp.py `get_result_pdf`: the six assignments
`params['degree'] = ...` through `params['grad'] = ...` in source order, with
`pd.notna(x) ... else 'null'` becoming `Option.getD x "null"` on the four
optional columns. -/
def seedParams (r : Row) : List (String × String) :=
  dictInsert "grad" (r.grad.getD "null")
    (dictInsert "result" (r.result.getD "null")
      (dictInsert "type" (r.type.getD "null")
        (dictInsert "etype" (r.etype.getD "null")
          (dictInsert "examCode" r.examCode
            (dictInsert "degree" r.degree [])))))

/-- Parameter construction in mcp.py `get_result_pdf`: declared-column seed,
then the reference-string pairs, then `htno`. -/
def resolveParams (r : Row) (htno : String) : List (String × String) :=
  dictInsert "htno" htno (addUrlParams r.URL (seedParams r))

/-- mcp.py `get_result_pdf`: locate the row, resolve parameters, POST,
classify the body against `error_indicators`, publish the PDF. -/
def get_result_pdf (catalog : List Row)
    (net : List (String × String) → FetchResult) (ts : String)
    (exam_code htno : String) : GenTrace :=
  match firstMatch exam_code catalog with
  | none => ⟨.notFoundCatalogEntry, [], []⟩
  | some row =>
    let params := resolveParams row htno
    match net params with
    | .transportFailure => ⟨.transportFailure, [params], []⟩
    | .ok body =>
      if errorIndicators.any (fun p => containsSub body.data p.data) then
        ⟨.notFoundRecord, [params], []⟩
      else
        ⟨.success ("static/pdfs/" ++ artifactName htno exam_code ts),
          [params], [artifactName htno exam_code ts]⟩

end Mcp

/-! ### Specification-side definitions

These are written from the words of the specification and of the claims, to
be compared with the source-derived definitions above. -/

/-- Value of key `k` after assigning the pairs of `l` in order into a map,
later pairs overwriting earlier ones ("overwriting or adding"). -/
def lastAssign (k : String) : List (String × String) → Option String
  | [] => none
  | kv :: t =>
    match lastAssign k t with
    | some v => some v
    | none => if kv.1 = k then some kv.2 else none

/-- Explicit fallback on optional values, used to state lookup
characterisations. -/
def orElseO (a b : Option String) : Option String :=
  match a with
  | some v => some v
  | none => b

/-- The `key=value` pairs of a query string, in order: split on the
ampersand, drop components without an equals sign, split the rest at the
first equals sign. -/
def parsePairs (qs : List Char) : List (String × String) :=
  (splitChar '&' qs).filterMap
    (fun comp =>
      if '=' ∈ comp then
        some (⟨(splitFirst '=' comp).1⟩, ⟨(splitFirst '=' comp).2⟩)
      else none)

/-- The reference-string pairs the source actually parses: those of the
segment of the URL between its first and second question mark (the whole
remainder when the URL holds exactly one; none when it holds none). -/
def urlPairs (url : String) : List (String × String) :=
  if '?' ∈ url.data then parsePairs ((splitChar '?' url.data).getD 1 [])
  else []

/-- Everything after the first question mark of the URL — the query segment
named by the claim ("parsed from the reference string after the first ?"). -/
def afterFirstQ (url : String) : List Char :=
  if '?' ∈ url.data then (splitFirst '?' url.data).2 else []

/-- The declared-column seed mapping as the claim words it: the six columns
in order, the literal string "null" substituted for a logical-null token. -/
def claimSeed (r : Row) : List (String × String) :=
  [("degree", r.degree), ("examCode", r.examCode),
    ("etype", r.etype.getD "null"), ("type", r.type.getD "null"),
    ("result", r.result.getD "null"), ("grad", r.grad.getD "null")]

/-- The parameter mapping exactly as claim C1 describes it: the declared
column seed, then every pair parsed from the reference string after the first
question mark overwriting or adding, then the student id under `htno`. -/
def claimResolve (r : Row) (htno : String) : List (String × String) :=
  dictInsert "htno" htno
    ((parsePairs (afterFirstQ r.URL)).foldl
      (fun p kv => dictInsert kv.1 kv.2 p) (claimSeed r))

/-- Seed lookup, ordered to mirror how the six dict assignments of
`Mcp.seedParams` shadow one another (all six keys are distinct, so this is
the same mapping the claim's seed stage denotes). -/
def seedLookup (k : String) (r : Row) : Option String :=
  if k = "grad" then some (r.grad.getD "null")
  else if k = "result" then some (r.result.getD "null")
  else if k = "type" then some (r.type.getD "null")
  else if k = "etype" then some (r.etype.getD "null")
  else if k = "examCode" then some r.examCode
  else if k = "degree" then some r.degree
  else none

/-- Normalise a facet value: a present-but-empty value becomes absent.  The
Filter Evaluators are invariant under this map because every stage is guarded
by Python truthiness. -/
def normO (o : Option String) : Option String :=
  match o with
  | some v => if v = "" then none else some v
  | none => none

/-! ### Concrete catalog rows used by counterexamples and witnesses -/

/-- Sample catalog row with exam code 1868: its URL carries only `degree` and
`examCode`, and the four optional columns are NaN. -/
def rowNoGrad : Row :=
  { Title := "B.Tech IV Year I Semester (R15) Supplementary JUNE-2025 Examinations Results"
    URL := "http://results.jntuh.ac.in/jsp/SearchResult.jsp?degree=btech&examCode=1868"
    Exam_Date := "08-AUGUST-2025"
    degree := "btech", examCode := "1868"
    etype := none, type := none, result := none, grad := none
    Regulation := "R15", Is_Supplementary := "Yes"
    Exam_Type := "Supplementary", Year := "IV", Semester := "I" }

/-- Row whose URL holds two question marks, separating the behaviours of
`url.split('?')[1]` and of "everything after the first question mark". -/
def rowTwoQ : Row :=
  { Title := "Sample", URL := "http://host/p?x=1?y=2", Exam_Date := "01-JAN-2025"
    degree := "btech", examCode := "2001"
    etype := none, type := none, result := none, grad := none
    Regulation := "R18", Is_Supplementary := "No"
    Exam_Type := "Regular", Year := "I", Semester := "I" }

/-- Row whose stored degree is the legacy alias "b.e". -/
def rowBE : Row :=
  { Title := "B.E IV Year I Semester (R16) Regular Results"
    URL := "http://host/p?degree=b.e&examCode=2002", Exam_Date := "02-JAN-2025"
    degree := "b.e", examCode := "2002"
    etype := none, type := none, result := none, grad := none
    Regulation := "R16", Is_Supplementary := "No"
    Exam_Type := "Regular", Year := "IV", Semester := "I" }

/-- Row whose Year token is stored in lower case. -/
def rowYearLower : Row :=
  { Title := "Sample lower year", URL := "http://host/p?degree=btech&examCode=2003"
    Exam_Date := "03-JAN-2025", degree := "btech", examCode := "2003"
    etype := none, type := none, result := none, grad := none
    Regulation := "R18", Is_Supplementary := "No"
    Exam_Type := "Regular", Year := "iv", Semester := "I" }

/-- Sample RC/RV row (exam code 1871 of the seeded catalog). -/
def rowRCRV : Row :=
  { Title := "RC/RV B.Tech III Year II Semester (R18) Supplementary Results"
    URL := "http://results.jntuh.ac.in/jsp/SearchResult.jsp?degree=btech&examCode=1871&etype=r18&result=gradercrv&type=rcrvintgrade"
    Exam_Date := "20-MAR-2025", degree := "btech", examCode := "1871"
    etype := some "r18", type := some "rcrvintgrade", result := some "gradercrv"
    grad := none, Regulation := "R18", Is_Supplementary := "Yes"
    Exam_Type := "Supplementary", Year := "III", Semester := "II" }

/-! ### Helper lemmas -/

/-- Lookup after a dict assignment: the assigned key reads back the assigned
value, every other key is untouched. -/
theorem lookup_dictInsert (k a v : String) (p : List (String × String)) :
    List.lookup k (dictInsert a v p) = if k = a then some v else List.lookup k p := by
  induction p with
  | nil =>
    cases hba : k == a with
    | true =>
      have hk := eq_of_beq hba
      simp [dictInsert, List.lookup, hba, hk]
    | false =>
      have hk := ne_of_beq_false hba
      simp [dictInsert, List.lookup, hba, hk]
  | cons kv t ih =>
    obtain ⟨k₁, v₁⟩ := kv
    by_cases h₁ : k₁ = a
    · subst h₁
      cases hba : k == k₁ with
      | true =>
        have hk := eq_of_beq hba
        simp [dictInsert, List.lookup, hba, hk]
      | false =>
        have hk := ne_of_beq_false hba
        simp [dictInsert, List.lookup, hba, hk]
    · cases hba : k == k₁ with
      | true =>
        have hk := eq_of_beq hba
        have hka : ¬k = a := fun hc => h₁ (hk.symm.trans hc)
        simp [dictInsert, h₁, List.lookup, hba, hka]
      | false =>
        simp [dictInsert, h₁, List.lookup, hba, ih]

/-- `orElseO` with an absent fallback. -/
theorem orElseO_none (a : Option String) : orElseO a none = a := by
  cases a <;> rfl

/-- The guarded fold of `addPairs` is the fold of the parsed pair list. -/
theorem addPairs_eq_foldl (qs : List Char) (p : List (String × String)) :
    addPairs qs p
      = (parsePairs qs).foldl (fun p kv => dictInsert kv.1 kv.2 p) p := by
  unfold addPairs parsePairs
  generalize splitChar '&' qs = comps
  induction comps generalizing p with
  | nil => rfl
  | cons c t ih =>
    by_cases h : '=' ∈ c <;>
      simp [List.filterMap_cons, h, List.foldl_cons, ih]

/-- Lookup after folding dict assignments over a pair list: the last pair of
the list with the key wins, falling back to the initial dict. -/
theorem lookup_foldl_dictInsert (k : String) (l : List (String × String))
    (p : List (String × String)) :
    List.lookup k (l.foldl (fun p kv => dictInsert kv.1 kv.2 p) p)
      = orElseO (lastAssign k l) (List.lookup k p) := by
  induction l generalizing p with
  | nil => simp [lastAssign, orElseO]
  | cons kv t ih =>
    obtain ⟨a, b⟩ := kv
    rw [List.foldl_cons, ih, lookup_dictInsert]
    cases h : lastAssign k t with
    | some v => simp [lastAssign, h, orElseO]
    | none =>
      by_cases hk : k = a
      · subst hk
        simp [lastAssign, h, orElseO]
      · have hak : ¬a = k := fun hc => hk hc.symm
        simp [lastAssign, h, hk, hak, orElseO]

/-- Lookup through the shared URL-parsing block: the last parsed pair with
the key wins, falling back to the dict handed in. -/
theorem lookup_addUrlParams (k : String) (url : String)
    (p : List (String × String)) :
    List.lookup k (addUrlParams url p)
      = orElseO (lastAssign k (urlPairs url)) (List.lookup k p) := by
  unfold addUrlParams urlPairs
  by_cases h : '?' ∈ url.data
  · rw [if_pos h, if_pos h, addPairs_eq_foldl, lookup_foldl_dictInsert]
  · simp [h, lastAssign, orElseO]

/-- Lookup in the declared-column seed of the MCP resolver. -/
theorem lookup_seedParams (k : String) (r : Row) :
    List.lookup k (Mcp.seedParams r) = seedLookup k r := by
  unfold Mcp.seedParams seedLookup
  simp only [lookup_dictInsert]
  rfl

/-- Every facet stage ignores the difference between an absent facet and a
present-but-empty one. -/
theorem applyIf_normO (o : Option String) (f : String → List Row → List Row)
    (rows : List Row) : applyIf (normO o) f rows = applyIf o f rows := by
  cases o with
  | none => rfl
  | some v => by_cases h : v = "" <;> simp [normO, applyIf, h]

/-- Membership in the first-seen de-duplication. -/
theorem mem_uniqueAux (l : List String) :
    ∀ (seen : List String) (x : String),
      x ∈ uniqueAux seen l ↔ x ∈ l ∧ x ∉ seen := by
  induction l with
  | nil => simp [uniqueAux]
  | cons y t ih =>
    intro seen x
    by_cases hy : y ∈ seen
    · rw [uniqueAux, if_pos hy, ih]
      constructor
      · rintro ⟨hxt, hxs⟩
        exact ⟨List.mem_cons_of_mem y hxt, hxs⟩
      · rintro ⟨hxm, hxs⟩
        rcases List.mem_cons.mp hxm with hxy | hxt
        · exact absurd (hxy ▸ hy) hxs
        · exact ⟨hxt, hxs⟩
    · rw [uniqueAux, if_neg hy]
      constructor
      · intro hx
        rcases List.mem_cons.mp hx with hxy | hx₁
        · exact ⟨hxy ▸ List.mem_cons_self y t, hxy ▸ hy⟩
        · obtain ⟨hxt, hxs⟩ := (ih (y :: seen) x).mp hx₁
          refine ⟨List.mem_cons_of_mem y hxt, fun hc => hxs ?_⟩
          exact List.mem_cons_of_mem y hc
      · rintro ⟨hxm, hxs⟩
        rcases List.mem_cons.mp hxm with hxy | hxt
        · exact hxy ▸ List.mem_cons_self y _
        · by_cases hxy : x = y
          · exact hxy ▸ List.mem_cons_self y _
          · refine List.mem_cons_of_mem y ((ih (y :: seen) x).mpr ⟨hxt, ?_⟩)
            intro hc
            rcases List.mem_cons.mp hc with h₁ | h₂
            · exact hxy h₁
            · exact hxs h₂

/-- Membership in `uniqueFS` is membership in the underlying list. -/
theorem mem_uniqueFS (l : List String) (x : String) :
    x ∈ uniqueFS l ↔ x ∈ l := by
  rw [uniqueFS, mem_uniqueAux]
  simp

/-- The two literal `in` tests of app.py, as one phrase-set test. -/
theorem hasPhrase_app (body : String) :
    hasPhrase App.errorIndicators body
      = (containsSub body.data "No Records Found".data
          || containsSub body.data "Invalid Hall Ticket Number".data) := by
  simp [hasPhrase, App.errorIndicators]

/-- Run of app.py `mcp_generate_result` when the inputs are non-empty, the
row is found and the POST yields a body: the outcome is decided by the
phrase test alone. -/
theorem App.app_generate_run (catalog : List Row)
    (net : List (String × String) → FetchResult) (ts code htno : String)
    (r : Row) (body : String)
    (hc : code ≠ "") (hh : htno ≠ "")
    (hMatch : firstMatch code catalog = some r)
    (hnet : net (App.resolveParams r htno) = FetchResult.ok body) :
    App.mcp_generate_result catalog net ts code htno
      = if hasPhrase App.errorIndicators body = true then
          ⟨Outcome.notFoundRecord, [App.resolveParams r htno], []⟩
        else
          ⟨Outcome.success ("/static/pdfs/" ++ artifactName htno code ts),
            [App.resolveParams r htno], [artifactName htno code ts]⟩ := by
  rw [hasPhrase_app]
  simp only [App.mcp_generate_result, hMatch, hnet, hc, hh, or_self, if_neg,
    not_false_eq_true, false_or, or_false]

/-- Run of mcp.py `get_result_pdf` when the row is found and the POST yields
a body: the outcome is decided by the `error_indicators` test alone. -/
theorem Mcp.mcp_generate_run (catalog : List Row)
    (net : List (String × String) → FetchResult) (ts code htno : String)
    (r : Row) (body : String)
    (hMatch : firstMatch code catalog = some r)
    (hnet : net (Mcp.resolveParams r htno) = FetchResult.ok body) :
    Mcp.get_result_pdf catalog net ts code htno
      = if hasPhrase Mcp.errorIndicators body = true then
          ⟨Outcome.notFoundRecord, [Mcp.resolveParams r htno], []⟩
        else
          ⟨Outcome.success ("static/pdfs/" ++ artifactName htno code ts),
            [Mcp.resolveParams r htno], [artifactName htno code ts]⟩ := by
  simp only [Mcp.get_result_pdf, hMatch, hnet, hasPhrase]

/-! ## Claim theorems -/

/-- C1 counterexample: the claim's three-stage merge does not describe both
resolvers.  At row 1868 (declared column `grad` absent), app.py's mapping has
no `grad` key at all, while the claim's merge puts `grad = "null"` in it; and
at a reference with two question marks, mcp.py parses only the segment before
the second question mark, while the claim's "after the first ?" parse keeps
the remainder inside the value. -/
theorem C1_counterexample :
    List.lookup "grad" (App.resolveParams rowNoGrad "HT") = none
    ∧ List.lookup "grad" (claimResolve rowNoGrad "HT") = some "null"
    ∧ List.lookup "x" (Mcp.resolveParams rowTwoQ "HT") = some "1"
    ∧ List.lookup "x" (claimResolve rowTwoQ "HT") = some "1?y=2" := by
  decide

/-- C1 amended: for every exam identifier present in the catalog and every
student id, mcp.py's resolver produces the three-stage merge — declared
columns seed (literal "null" for a logical-null token), then the pairs of the
reference segment between the first and second question mark (the whole
remainder when the reference holds exactly one) overwriting or adding, then
`htno` last overwriting everything — while app.py's resolver produces only
the reference-segment pairs followed by `htno`, with no declared-column
seed. -/
theorem C1_amended_resolver_merge (catalog : List Row) (code htno : String)
    (r : Row) (hMatch : firstMatch code catalog = some r) :
    (∀ k, List.lookup k (Mcp.resolveParams r htno)
        = if k = "htno" then some htno
          else orElseO (lastAssign k (urlPairs r.URL)) (seedLookup k r))
    ∧ (∀ k, List.lookup k (App.resolveParams r htno)
        = if k = "htno" then some htno
          else lastAssign k (urlPairs r.URL)) := by
  constructor
  · intro k
    unfold Mcp.resolveParams
    rw [lookup_dictInsert, lookup_addUrlParams, lookup_seedParams]
  · intro k
    unfold App.resolveParams
    rw [lookup_dictInsert, lookup_addUrlParams]
    rw [show List.lookup k ([] : List (String × String)) = none from rfl, orElseO_none]

/-- C1 witness: the characterisation applied at the concrete catalog row
1868 and key `etype`. -/
theorem C1_amended_resolver_merge_witness :
    List.lookup "etype" (Mcp.resolveParams rowNoGrad "H")
      = if ("etype" : String) = "htno" then some "H"
        else orElseO (lastAssign "etype" (urlPairs rowNoGrad.URL))
          (seedLookup "etype" rowNoGrad) :=
  (C1_amended_resolver_merge [rowNoGrad] "1868" "H" rowNoGrad (by decide)).1 "etype"

/-- C2 counterexample: app.py's generate with the empty exam identifier
(which matches no catalog row) returns the InvalidRequest failure, not
NotFoundCatalogEntry. -/
theorem C2_counterexample :
    App.mcp_generate_result [rowNoGrad] (fun _ => FetchResult.ok "") "ts" "" "H"
        = ⟨Outcome.invalidRequest, [], []⟩
    ∧ Outcome.invalidRequest ≠ Outcome.notFoundCatalogEntry := by
  decide

/-- C2 amended: for every exam identifier matching no catalog row,
mcp.py's generate returns NotFoundCatalogEntry with no network call and no
artifact for every student id; app.py's generate does the same whenever both
inputs are non-empty, and returns InvalidRequest (still with no network call
and no artifact) when either input is empty. -/
theorem C2_amended_missing_code :
    (∀ (catalog : List Row) (net : List (String × String) → FetchResult)
        (ts code htno : String), code ≠ "" → htno ≠ "" →
      firstMatch code catalog = none →
      App.mcp_generate_result catalog net ts code htno
        = ⟨Outcome.notFoundCatalogEntry, [], []⟩)
    ∧ (∀ (catalog : List Row) (net : List (String × String) → FetchResult)
        (ts code htno : String), code = "" ∨ htno = "" →
      App.mcp_generate_result catalog net ts code htno
        = ⟨Outcome.invalidRequest, [], []⟩)
    ∧ (∀ (catalog : List Row) (net : List (String × String) → FetchResult)
        (ts code htno : String),
      firstMatch code catalog = none →
      Mcp.get_result_pdf catalog net ts code htno
        = ⟨Outcome.notFoundCatalogEntry, [], []⟩) := by
  refine ⟨?_, ?_, ?_⟩
  · intro catalog net ts code htno hc hh hm
    simp [App.mcp_generate_result, hc, hh, hm]
  · intro catalog net ts code htno h
    simp [App.mcp_generate_result, h]
  · intro catalog net ts code htno hm
    simp [Mcp.get_result_pdf, hm]

/-- C2 witness: both generate operations at a concrete absent exam code. -/
theorem C2_amended_missing_code_witness :
    App.mcp_generate_result [rowNoGrad] (fun _ => FetchResult.ok "") "ts" "9999" "H"
        = ⟨Outcome.notFoundCatalogEntry, [], []⟩
    ∧ Mcp.get_result_pdf [rowNoGrad] (fun _ => FetchResult.ok "") "ts" "9999" "H"
        = ⟨Outcome.notFoundCatalogEntry, [], []⟩ :=
  ⟨C2_amended_missing_code.1 [rowNoGrad] (fun _ => FetchResult.ok "") "ts" "9999" "H"
      (by decide) (by decide) (by decide),
    C2_amended_missing_code.2.2 [rowNoGrad] (fun _ => FetchResult.ok "") "ts" "9999" "H"
      (by decide)⟩

/-- C3: once a row is found and the POST yields a body, a body containing
"Invalid Hall Ticket Number" or "No Records Found" is classified as
NotFoundRecord with no artifact by both generate operations, and an artifact
is produced, with Success, exactly when the body contains none of the
operation's fixed not-found phrases (app.py checks two phrases, mcp.py
four). -/
theorem C3_response_classification (catalog : List Row)
    (net : List (String × String) → FetchResult) (ts code htno : String)
    (r : Row) (body : String) (hMatch : firstMatch code catalog = some r) :
    (code ≠ "" → htno ≠ "" → net (App.resolveParams r htno) = FetchResult.ok body →
      ((containsSub body.data "Invalid Hall Ticket Number".data = true
          ∨ containsSub body.data "No Records Found".data = true) →
        App.mcp_generate_result catalog net ts code htno
          = ⟨Outcome.notFoundRecord, [App.resolveParams r htno], []⟩)
      ∧ (hasPhrase App.errorIndicators body = false →
        App.mcp_generate_result catalog net ts code htno
          = ⟨Outcome.success ("/static/pdfs/" ++ artifactName htno code ts),
              [App.resolveParams r htno], [artifactName htno code ts]⟩)
      ∧ ((∃ loc, (App.mcp_generate_result catalog net ts code htno).outcome
            = Outcome.success loc)
          ↔ hasPhrase App.errorIndicators body = false))
    ∧ (net (Mcp.resolveParams r htno) = FetchResult.ok body →
      ((containsSub body.data "Invalid Hall Ticket Number".data = true
          ∨ containsSub body.data "No Records Found".data = true) →
        Mcp.get_result_pdf catalog net ts code htno
          = ⟨Outcome.notFoundRecord, [Mcp.resolveParams r htno], []⟩)
      ∧ (hasPhrase Mcp.errorIndicators body = false →
        Mcp.get_result_pdf catalog net ts code htno
          = ⟨Outcome.success ("static/pdfs/" ++ artifactName htno code ts),
              [Mcp.resolveParams r htno], [artifactName htno code ts]⟩)
      ∧ ((∃ loc, (Mcp.get_result_pdf catalog net ts code htno).outcome
            = Outcome.success loc)
          ↔ hasPhrase Mcp.errorIndicators body = false)) := by
  constructor
  · intro hc hh hnet
    have hg := App.app_generate_run catalog net ts code htno r body hc hh hMatch hnet
    refine ⟨?_, ?_, ?_⟩
    · intro hp
      have hp₁ : hasPhrase App.errorIndicators body = true := by
        rw [hasPhrase_app]
        rcases hp with h | h <;> simp [h]
      rw [hg, if_pos hp₁]
    · intro hp
      rw [hg, if_neg (by simp [hp])]
    · rw [hg]
      cases hp : hasPhrase App.errorIndicators body <;> simp [hp]
  · intro hnet
    have hg := Mcp.mcp_generate_run catalog net ts code htno r body hMatch hnet
    refine ⟨?_, ?_, ?_⟩
    · intro hp
      have hp₁ : hasPhrase Mcp.errorIndicators body = true := by
        simp only [hasPhrase, Mcp.errorIndicators, List.any_cons, List.any_nil]
        rcases hp with h | h <;> simp [h]
      rw [hg, if_pos hp₁]
    · intro hp
      rw [hg, if_neg (by simp [hp])]
    · rw [hg]
      cases hp : hasPhrase Mcp.errorIndicators body <;> simp [hp]

/-- C3 witness: a body containing "No Records Found" gives NotFoundRecord in
app.py, and a clean body gives Success and an artifact in mcp.py, both at
catalog row 1868. -/
theorem C3_response_classification_witness :
    App.mcp_generate_result [rowNoGrad]
        (fun _ => FetchResult.ok "<html>No Records Found</html>") "ts" "1868" "H"
      = ⟨Outcome.notFoundRecord, [App.resolveParams rowNoGrad "H"], []⟩
    ∧ Mcp.get_result_pdf [rowNoGrad]
        (fun _ => FetchResult.ok "<html>marks</html>") "ts" "1868" "H"
      = ⟨Outcome.success ("static/pdfs/" ++ artifactName "H" "1868" "ts"),
          [Mcp.resolveParams rowNoGrad "H"], [artifactName "H" "1868" "ts"]⟩ :=
  ⟨((C3_response_classification [rowNoGrad]
        (fun _ => FetchResult.ok "<html>No Records Found</html>") "ts" "1868" "H"
        rowNoGrad "<html>No Records Found</html>" (by decide)).1
      (by decide) (by decide) rfl).1 (Or.inr (by decide)),
    ((C3_response_classification [rowNoGrad]
        (fun _ => FetchResult.ok "<html>marks</html>") "ts" "1868" "H"
        rowNoGrad "<html>marks</html>" (by decide)).2 rfl).2.1 (by decide)⟩

/-- C4: with no predicate set, both Filter Evaluators return the whole
catalog in catalog order. -/
theorem C4_empty_criteria (rows : List Row) :
    App.filter_results rows ⟨none, none, none, none, none, none⟩ = rows
    ∧ Mcp.filter_results rows none none none none none none = rows :=
  ⟨rfl, rfl⟩

/-- C5 counterexample: mcp.py's Filter Evaluator does not give the degree
category "BTech" any alias set — the stored degree "b.e" is not matched —
while app.py's does. -/
theorem C5_counterexample :
    Mcp.filter_results [rowBE] (some "BTech") none none none none none = []
    ∧ rowBE ∉ Mcp.filter_results [rowBE] (some "BTech") none none none none none
    ∧ App.filter_results [rowBE] ⟨some "BTech", none, none, none, none, none⟩
        = [rowBE] := by
  decide

/-- C5 amended: in app.py's evaluator the degree category "BTech" matches
exactly the rows whose lower-cased stored degree is "btech" or "b.e", and the
other three categories match exactly their single canonical lower-case token;
in mcp.py's evaluator the degree predicate matches exactly the rows whose
stored degree equals the lower-cased predicate value, with no alias set. -/
theorem C5_amended_degree_predicate (rows : List Row) (d : String) (hd : d ≠ "") :
    App.filter_results rows ⟨some "BTech", none, none, none, none, none⟩
        = rows.filter (fun r => lowerStr r.degree == "btech" || lowerStr r.degree == "b.e")
    ∧ App.filter_results rows ⟨some "B.Pharmacy", none, none, none, none, none⟩
        = rows.filter (fun r => lowerStr r.degree == "bpharmacy")
    ∧ App.filter_results rows ⟨some "MTech", none, none, none, none, none⟩
        = rows.filter (fun r => lowerStr r.degree == "mtech")
    ∧ App.filter_results rows ⟨some "M.Pharmacy", none, none, none, none, none⟩
        = rows.filter (fun r => lowerStr r.degree == "mpharmacy")
    ∧ Mcp.filter_results rows (some d) none none none none none
        = rows.filter (fun r => r.degree == lowerStr d) := by
  refine ⟨rfl, rfl, rfl, rfl, ?_⟩
  simp [Mcp.filter_results, applyIf, hd]

/-- C5 witness: the app.py BTech alias equation at the concrete b.e row. -/
theorem C5_amended_degree_predicate_witness :
    App.filter_results [rowBE] ⟨some "BTech", none, none, none, none, none⟩
      = List.filter (fun r => lowerStr r.degree == "btech" || lowerStr r.degree == "b.e")
          [rowBE] :=
  (C5_amended_degree_predicate [rowBE] "btech" (by decide)).1

/-- C6 counterexample: a row whose stored Year "iv" equals the predicate
value "IV" up to letter case is not matched by mcp.py's evaluator (app.py's
matches it). -/
theorem C6_counterexample :
    lowerStr rowYearLower.Year = lowerStr "IV"
    ∧ Mcp.filter_results [rowYearLower] none (some "IV") none none none none = []
    ∧ App.filter_results [rowYearLower] ⟨none, some "IV", none, none, none, none⟩
        = [rowYearLower] := by
  decide

/-- C6 amended: app.py's evaluator compares academic-year, semester and
regulation predicates case-insensitively, as claimed; mcp.py's evaluator
compares Year and Semester by exact case-sensitive equality and Regulation by
exact equality of the stored token with the upper-cased predicate value. -/
theorem C6_amended_scalar_facets (rows : List Row) (y s g : String)
    (hy : y ≠ "") (hs : s ≠ "") (hg : g ≠ "") :
    App.filter_results rows ⟨none, some y, none, none, none, none⟩
        = rows.filter (fun r => lowerStr r.Year == lowerStr y)
    ∧ App.filter_results rows ⟨none, none, some s, none, none, none⟩
        = rows.filter (fun r => lowerStr r.Semester == lowerStr s)
    ∧ App.filter_results rows ⟨none, none, none, some g, none, none⟩
        = rows.filter (fun r => lowerStr r.Regulation == lowerStr g)
    ∧ Mcp.filter_results rows none (some y) none none none none
        = rows.filter (fun r => r.Year == y)
    ∧ Mcp.filter_results rows none none (some s) none none none
        = rows.filter (fun r => r.Semester == s)
    ∧ Mcp.filter_results rows none none none (some g) none none
        = rows.filter (fun r => r.Regulation == upperStr g) := by
  refine ⟨?_, ?_, ?_, ?_, ?_, ?_⟩ <;>
    simp [App.filter_results, Mcp.filter_results, applyIf, hy, hs, hg]

/-- C6 witness: the mcp.py Year equation at the concrete lower-case row. -/
theorem C6_amended_scalar_facets_witness :
    Mcp.filter_results [rowYearLower] none (some "IV") none none none none
      = List.filter (fun r => r.Year == "IV") [rowYearLower] :=
  (C6_amended_scalar_facets [rowYearLower] "IV" "I" "R18"
      (by decide) (by decide) (by decide)).2.2.2.1

/-- C7: in both evaluators the exam-type predicate "Supplementary" keeps a
row exactly when "supplementary" occurs case-insensitively anywhere in its
exam-type field — in particular the fields "Supplementary" and "RC/RV
Supplementary" both match — while "Regular" keeps a row only by equality with
the canonical token (case-insensitive equality in app.py, exact equality with
"Regular" in mcp.py), never by substring. -/
theorem C7_exam_type_rules (rows : List Row) :
    App.filter_results rows ⟨none, none, none, none, some "Supplementary", none⟩
        = rows.filter (fun r => containsInsens r.Exam_Type "supplementary")
    ∧ Mcp.filter_results rows none none none none (some "Supplementary") none
        = rows.filter (fun r => containsInsens r.Exam_Type "supplementary")
    ∧ App.filter_results rows ⟨none, none, none, none, some "Regular", none⟩
        = rows.filter (fun r => lowerStr r.Exam_Type == "regular")
    ∧ Mcp.filter_results rows none none none none (some "Regular") none
        = rows.filter (fun r => r.Exam_Type == "Regular")
    ∧ containsInsens "Supplementary" "supplementary" = true
    ∧ containsInsens "RC/RV Supplementary" "supplementary" = true
    ∧ containsInsens "RC/RV Regular" "supplementary" = false :=
  ⟨rfl, rfl, rfl, rfl, by decide, by decide, by decide⟩

/-- C8 counterexample: in mcp.py's evaluator the RC/RV predicate value "No"
does exclude rows (it keeps only non-RC/RV titles), so the result differs
from the same criteria with the predicate absent. -/
theorem C8_counterexample :
    Mcp.filter_results [rowRCRV] none none none none none (some "No") = []
    ∧ Mcp.filter_results [rowRCRV] none none none none none none = [rowRCRV]
    ∧ Mcp.filter_results [rowRCRV] none none none none none (some "No")
        ≠ Mcp.filter_results [rowRCRV] none none none none none none := by
  decide

/-- C8 amended: in app.py's evaluator any RC/RV predicate value other than
"Yes" imposes no exclusion, and "Yes" keeps exactly the rows whose title
contains "RC/RV" or "RCRV" case-insensitively; in mcp.py's evaluator "Yes"
keeps exactly those rows, "No" keeps exactly the complementary rows, and any
other non-"Yes"/"No" value imposes no exclusion. -/
theorem C8_amended_rcrv_predicate (rows : List Row) (v : String) (hv : v ≠ "Yes") :
    App.filter_results rows ⟨none, none, none, none, none, some v⟩
        = App.filter_results rows ⟨none, none, none, none, none, none⟩
    ∧ App.filter_results rows ⟨none, none, none, none, none, some "Yes"⟩
        = rows.filter rcrvTitle
    ∧ Mcp.filter_results rows none none none none none (some "Yes")
        = rows.filter rcrvTitle
    ∧ Mcp.filter_results rows none none none none none (some "No")
        = rows.filter (fun r => !(rcrvTitle r))
    ∧ (v ≠ "No" → Mcp.filter_results rows none none none none none (some v)
        = Mcp.filter_results rows none none none none none none) := by
  refine ⟨?_, rfl, rfl, rfl, ?_⟩
  · by_cases he : v = ""
    · subst he; rfl
    · simp [App.filter_results, applyIf, he, App.rcrvStage, hv]
  · intro hn
    by_cases he : v = ""
    · subst he; rfl
    · simp [Mcp.filter_results, applyIf, he, hv, hn]

/-- C8 witness: the app.py no-exclusion equation at value "No" on the
concrete RC/RV row. -/
theorem C8_amended_rcrv_predicate_witness :
    App.filter_results [rowRCRV] ⟨none, none, none, none, none, some "No"⟩
      = App.filter_results [rowRCRV] ⟨none, none, none, none, none, none⟩ :=
  (C8_amended_rcrv_predicate [rowRCRV] "No" (by decide)).1

/-- C9: `get_unique_values` never errors (it is total), returns the empty
collection for a column absent from the schema, and returns exactly the
non-null stringified values of the column except those equal
case-insensitively to "unknown" or "nan". -/
theorem C9_distinct_values (df : List (String × List (Option String)))
    (col : String) :
    (df.lookup col = none → App.get_unique_values df col = [])
    ∧ (∀ v, v ∈ App.get_unique_values df col →
        lowerStr v ≠ "unknown" ∧ lowerStr v ≠ "nan"
          ∧ ∃ cells, df.lookup col = some cells ∧ some v ∈ cells)
    ∧ (∀ cells v, df.lookup col = some cells → some v ∈ cells →
        lowerStr v ≠ "unknown" → lowerStr v ≠ "nan" →
        v ∈ App.get_unique_values df col) := by
  refine ⟨?_, ?_, ?_⟩
  · intro h
    simp [App.get_unique_values, h]
  · intro v hv
    cases h : df.lookup col with
    | none =>
      rw [App.get_unique_values, h] at hv
      exact absurd hv (List.not_mem_nil v)
    | some cells =>
      rw [App.get_unique_values, h] at hv
      rw [List.mem_filter] at hv
      obtain ⟨hmem, hpred⟩ := hv
      rw [mem_uniqueFS, List.mem_filterMap] at hmem
      obtain ⟨a, ha, haeq⟩ := hmem
      simp only [id_eq] at haeq
      subst haeq
      simp only [Bool.not_eq_eq_eq_not, Bool.not_true, Bool.or_eq_false_iff,
        beq_eq_false_iff_ne, ne_eq] at hpred
      exact ⟨hpred.1, hpred.2, cells, rfl, ha⟩
  · intro cells v h hmem h1 h2
    rw [App.get_unique_values, h, List.mem_filter]
    refine ⟨?_, ?_⟩
    · rw [mem_uniqueFS, List.mem_filterMap]
      exact ⟨some v, hmem, rfl⟩
    · simp [h1, h2]

/-- C9 witness: instantiated at a concrete Year column holding NaN,
"Unknown" and "nan" cells. -/
theorem C9_distinct_values_witness :
    "III" ∈ App.get_unique_values
      [("Year", [some "IV", none, some "Unknown", some "nan", some "IV", some "III"])]
      "Year" :=
  (C9_distinct_values
      [("Year", [some "IV", none, some "Unknown", some "nan", some "IV", some "III"])]
      "Year").2.2
    [some "IV", none, some "Unknown", some "nan", some "IV", some "III"] "III"
    rfl (by decide) (by decide) (by decide)

/-- C10: every facet stage of both evaluators is guarded by presence and
non-emptiness, so replacing each present-but-empty facet value by an absent
one leaves the result unchanged; in particular supplying the empty string for
any one facet returns exactly the rows of the same criteria with that facet
absent. -/
theorem C10_blank_facets (rows : List Row) (f : Filters)
    (d y s g e i : Option String) :
    App.filter_results rows
        ⟨normO f.degree_type, normO f.year, normO f.semester, normO f.regulation,
          normO f.exam_type, normO f.rc_rv⟩
      = App.filter_results rows f
    ∧ Mcp.filter_results rows (normO d) (normO y) (normO s) (normO g) (normO e)
        (normO i)
      = Mcp.filter_results rows d y s g e i := by
  constructor
  · simp only [App.filter_results, applyIf_normO]
  · simp only [Mcp.filter_results, applyIf_normO]
